import Mathlib

/-!
Shallow embedding of src/create_chroots.py (repository bind9_chroots).

Python objects are modelled as Lean values.  Object identity and mutable
aliasing, where the properties below depend on them, are modelled with an
explicit heap: zone objects live in Topology.zoneHeap (a zone reference is
its index, indices are assigned in the allocation order of the script), and
the Python list objects that end up bound to the zones attribute of
nameservers live in Topology.listHeap (a nameserver stores the index of its
list object, so two nameservers whose zones attributes alias the same list
object store the same index).  Nameserver references held inside zone
objects (auth_nameservers, root_ns) are stored by nameserver name; names
are generated from fixed role literals and serve purely as identifiers.

Attributes that a Python constructor may leave unset are modelled as
Option fields: RootZone.__init__ does not call MasterZone.__init__, so a
RootZone object carries none for every MasterZone attribute it never sets.
-/

namespace BindChroots

/-- Python xrange over an argparse int: xrange(n) is empty for n <= 0. -/
def pyRange (n : Int) : List Nat := List.range n.toNat

/-- The zone class of a zone object: MasterZone, RootZone (subclass of
MasterZone), SlaveZone, StubZone (subclass of SlaveZone). -/
inductive ZoneKind
  | master
  | rootz
  | slave
  | stub
deriving DecidableEq

/-- A zone object.  Each field is an instance attribute; a field holds none
when the corresponding Python attribute was never assigned by the variant
constructor that built the object. -/
structure ZoneObj where
  kind : ZoneKind
  name : String
  auth_nameservers : Option (List String)
  refresh : Option Int
  retry : Option Int
  expire : Option Int
  negative_ttl : Option Int
  test_records : Option (List String)
  master_ips : Option (List String)
  root_ns : Option String
deriving DecidableEq

/-- MasterZone.__init__ (lines 76-85): sets name, auth_nameservers, the four
timing values and test_records = [testI for I in xrange(record_count)]. -/
def MasterZone.init (name : String) (auth_nameservers : List String)
    (refresh retry expire negative_ttl : Int) (record_count : Int) : ZoneObj :=
  { kind := ZoneKind.master
    name := name
    auth_nameservers := some auth_nameservers
    refresh := some refresh
    retry := some retry
    expire := some expire
    negative_ttl := some negative_ttl
    test_records := some ((pyRange record_count).map (fun i => "test" ++ Nat.repr i))
    master_ips := none
    root_ns := none }

/-- RootZone.__init__ (lines 108-110): sets only root_ns and name = the root
label; it does not call MasterZone.__init__, so every MasterZone attribute
stays unset (none). -/
def RootZone.init (root_ns : String) : ZoneObj :=
  { kind := ZoneKind.rootz
    name := "."
    auth_nameservers := none
    refresh := none
    retry := none
    expire := none
    negative_ttl := none
    test_records := none
    master_ips := none
    root_ns := some root_ns }

/-- SlaveZone.__init__ (lines 118-120): sets name and master_ips. -/
def SlaveZone.init (name : String) (master_ips : List String) : ZoneObj :=
  { kind := ZoneKind.slave
    name := name
    auth_nameservers := none
    refresh := none
    retry := none
    expire := none
    negative_ttl := none
    test_records := none
    master_ips := some master_ips
    root_ns := none }

/-- StubZone (line 134) inherits SlaveZone.__init__ unchanged. -/
def StubZone.init (name : String) (master_ips : List String) : ZoneObj :=
  { SlaveZone.init name master_ips with kind := ZoneKind.stub }

/-- The is_slave property: False on MasterZone (line 92, inherited by
RootZone), True on SlaveZone (line 127, inherited by StubZone). -/
def ZoneObj.is_slave (z : ZoneObj) : Bool :=
  match z.kind with
  | ZoneKind.master => false
  | ZoneKind.rootz => false
  | ZoneKind.slave => true
  | ZoneKind.stub => true

/-- Path of the zone file written by MasterZone.write_zonefile (line 101). -/
def zonefilePath (ns_name zone_name : String) : String :=
  "chroots/" ++ ns_name ++ "/var/named/zones/" ++ zone_name ++ ".zone"

/-- The write_zonefile dispatch: MasterZone.write_zonefile (lines 99-103,
inherited by RootZone) writes exactly one file at zonefilePath; the slave
override (lines 130-131, inherited by StubZone) is pass.  The result is the
list of file paths written by one call. -/
def write_zonefile (z : ZoneObj) (ns_name : String) : List String :=
  match z.kind with
  | ZoneKind.master => [zonefilePath ns_name z.name]
  | ZoneKind.rootz => [zonefilePath ns_name z.name]
  | ZoneKind.slave => []
  | ZoneKind.stub => []

/-- A nameserver object.  zonesRef is the listHeap index of the list object
bound to the zones attribute (none for recursive nameservers, which have no
zones attribute at all).  delegated_zone_ids is the content of the
delegated_zones attribute (zone heap ids); root_ns_ip only exists on
RecursiveNameserver. -/
structure NS where
  name : String
  ip : String
  use_chroot : Bool
  is_recursive : Bool
  zonesRef : Option Nat
  delegated_zone_ids : List Nat
  root_ns_ip : Option String
deriving DecidableEq

/-- The topology built by main (lines 255-346). -/
structure Topology where
  zoneHeap : List ZoneObj
  listHeap : List (List Nat)
  master_ns : NS
  xfrs : List NS
  resolvers : List NS
  subdomain_resolvers : List NS
  root_ns : NS
  recursive_nameservers : List NS
  master_zone_ids : List Nat
deriving DecidableEq

/-- Dereference a zone heap id. -/
def Topology.zoneAt (t : Topology) (i : Nat) : Option ZoneObj := t.zoneHeap[i]?

/-- Dereference a list object id. -/
def Topology.listAt (t : Topology) (r : Nat) : List Nat := (t.listHeap[r]?).getD []

/-- The zone ids a nameserver serves (the content of its zones list). -/
def nsZoneIds (t : Topology) (ns : NS) : List Nat :=
  match ns.zonesRef with
  | some r => t.listAt r
  | none => []

/-- The zone objects a nameserver serves. -/
def nsZoneObjs (t : Topology) (ns : NS) : List ZoneObj :=
  (nsZoneIds t ns).filterMap (fun i => t.zoneAt i)

/-- Overwrite one zone object in the heap (mutation of that object). -/
def setZone (t : Topology) (i : Nat) (z : ZoneObj) : Topology :=
  { t with zoneHeap := t.zoneHeap.set i z }

/-- Append a zone id through the zones list object of one nameserver
(the Python statement ns.zones.append(z)). -/
def appendZoneVia (t : Topology) (ns : NS) (zid : Nat) : Topology :=
  match ns.zonesRef with
  | some r => { t with listHeap := t.listHeap.set r (t.listAt r ++ [zid]) }
  | none => t

/-- All nameservers in build order (line 350). -/
def allNameservers (t : Topology) : List NS :=
  [t.root_ns, t.master_ns] ++ t.xfrs ++ t.resolvers
    ++ t.subdomain_resolvers ++ t.recursive_nameservers

/-- The configuration surface of main (argparse flags, lines 214-241).
Counts are argparse ints, so Int.  The ip prefix flags are abbreviated pfx
here. -/
structure Config where
  zone_count : Int
  master_ip : String
  xfr_ip_pfx : String
  resolver_ip_pfx : String
  xfr_count : Int
  resolver_count : Int
  subdomain_resolver_count : Int
  subdomain_resolver_ip_pfx : String
  root_ns_ip : String
  recursive_ns_pfx : String
  recursive_ns_count : Int
  refresh : Int
  retry : Int
  expire : Int
  negative_ttl : Int
  record_count : Int
  ns_path : Option String
  nsupdate_path : Option String
  nsupdate_interval : Int
  no_chroots : Bool
deriving DecidableEq

/-- The argparse defaults (lines 214-241). -/
def defaultConfig : Config :=
  { zone_count := 2
    master_ip := "127.1.1.1"
    xfr_ip_pfx := "127.2.2"
    resolver_ip_pfx := "127.3.3"
    xfr_count := 2
    resolver_count := 1
    subdomain_resolver_count := 0
    subdomain_resolver_ip_pfx := "127.4.4"
    root_ns_ip := "127.1.1.2"
    recursive_ns_pfx := "127.5.5"
    recursive_ns_count := 1
    refresh := 60
    retry := 30
    expire := 300
    negative_ttl := 5
    record_count := 1000
    ns_path := none
    nsupdate_path := none
    nsupdate_interval := 1
    no_chroots := false }

/-! The topology constructed by main, lines 255-346, split into named
pieces (one per local of main) so that theorems can speak about them.
Zone heap slots are assigned in the allocation order of the script: master
zones, xfr slave zones, resolver slave zones, then (only when
subdomain_resolver_count > 0) subdomain master zones and subdomain stub
zones, then the root zone, then the deepcopied delegated zones.  List
object slots: 0 = master_zones (line 275), 1 = xfr_zones (line 286, shared
by every xfr, lines 289-290), 2 = resolver_zones (line 292, shared by
every resolver, lines 295-296), then when subdomain_resolver_count > 0
slot 3 = master_subdomain_zones (line 306, shared by every subdomain
resolver, lines 315-316), and the last slot = the fresh list [root_zone]
of line 334. -/

/-- The master nameserver (lines 257-260); its zones attribute is rebound
to the master_zones list, slot 0 (line 284). -/
def buildMasterNS (cfg : Config) : NS :=
  { name := "master", ip := cfg.master_ip, use_chroot := !cfg.no_chroots,
    is_recursive := false, zonesRef := some 0,
    delegated_zone_ids := [], root_ns_ip := none }

/-- The xfr nameservers (lines 261-266); every one has its zones attribute
rebound to the one xfr_zones list, slot 1 (lines 289-290). -/
def buildXfrs (cfg : Config) : List NS :=
  (pyRange cfg.xfr_count).map (fun i =>
    { name := "xfr" ++ Nat.repr i, ip := cfg.xfr_ip_pfx ++ "." ++ Nat.repr (i + 1),
      use_chroot := !cfg.no_chroots, is_recursive := false, zonesRef := some 1,
      delegated_zone_ids := [], root_ns_ip := none })

/-- The resolver nameservers (lines 267-272); every one has its zones
attribute rebound to the one resolver_zones list, slot 2 (lines 295-296). -/
def buildResolvers (cfg : Config) : List NS :=
  (pyRange cfg.resolver_count).map (fun i =>
    { name := "resolver" ++ Nat.repr i,
      ip := cfg.resolver_ip_pfx ++ "." ++ Nat.repr (i + 1),
      use_chroot := !cfg.no_chroots, is_recursive := false, zonesRef := some 2,
      delegated_zone_ids := [], root_ns_ip := none })

/-- auth_nameservers = [master_ns] + xfrs + resolvers (line 273), by name. -/
def authNsNames (cfg : Config) : List String :=
  "master" :: ((buildXfrs cfg).map NS.name ++ (buildResolvers cfg).map NS.name)

/-- The master zones (lines 275-283), heap slots 0 .. zone_count - 1. -/
def buildMasterZoneObjs (cfg : Config) : List ZoneObj :=
  (pyRange cfg.zone_count).map (fun i =>
    MasterZone.init ("zone" ++ Nat.repr i ++ ".com") (authNsNames cfg)
      cfg.refresh cfg.retry cfg.expire cfg.negative_ttl cfg.record_count)

/-- The xfr slave zones (lines 286-288), next heap slots. -/
def buildXfrZoneObjs (cfg : Config) : List ZoneObj :=
  (pyRange cfg.zone_count).map (fun i =>
    SlaveZone.init ("zone" ++ Nat.repr i ++ ".com") [cfg.master_ip])

/-- The resolver slave zones (lines 292-294), next heap slots. -/
def buildResolverZoneObjs (cfg : Config) : List ZoneObj :=
  (pyRange cfg.zone_count).map (fun i =>
    SlaveZone.init ("zone" ++ Nat.repr i ++ ".com") ((buildXfrs cfg).map NS.ip))

/-- The subdomain resolvers (lines 299-304), built only when
subdomain_resolver_count > 0 (line 298); every one has its zones attribute
rebound to the one master_subdomain_zones list, slot 3 (lines 315-316). -/
def buildSubResolvers (cfg : Config) : List NS :=
  if 0 < cfg.subdomain_resolver_count then
    (pyRange cfg.subdomain_resolver_count).map (fun i =>
      { name := "sub" ++ Nat.repr i,
        ip := cfg.subdomain_resolver_ip_pfx ++ "." ++ Nat.repr (i + 1),
        use_chroot := !cfg.no_chroots, is_recursive := false, zonesRef := some 3,
        delegated_zone_ids := [], root_ns_ip := none })
  else []

/-- The subdomain master zones (lines 306-314), next heap slots, only when
subdomain_resolver_count > 0. -/
def buildSubMasterObjs (cfg : Config) : List ZoneObj :=
  if 0 < cfg.subdomain_resolver_count then
    (pyRange cfg.zone_count).map (fun i =>
      MasterZone.init ("sub.zone" ++ Nat.repr i ++ ".com")
        ((buildSubResolvers cfg).map NS.name)
        cfg.refresh cfg.retry cfg.expire cfg.negative_ttl cfg.record_count)
  else []

/-- The subdomain stub zones (lines 318-321), next heap slots, only when
subdomain_resolver_count > 0. -/
def buildStubObjs (cfg : Config) : List ZoneObj :=
  if 0 < cfg.subdomain_resolver_count then
    (pyRange cfg.zone_count).map (fun i =>
      StubZone.init ("sub.zone" ++ Nat.repr i ++ ".com")
        ((buildSubResolvers cfg).map NS.ip))
  else []

/-- The heap up to but excluding the root zone. -/
def buildHeapBeforeRoot (cfg : Config) : List ZoneObj :=
  buildMasterZoneObjs cfg ++ buildXfrZoneObjs cfg ++ buildResolverZoneObjs cfg
    ++ buildSubMasterObjs cfg ++ buildStubObjs cfg

/-- The ids held by the master_zones list (slot 0). -/
def masterZoneIds (cfg : Config) : List Nat :=
  List.range' 0 (buildMasterZoneObjs cfg).length

/-- The ids held by the xfr_zones list (slot 1). -/
def xfrZoneIds (cfg : Config) : List Nat :=
  List.range' (buildMasterZoneObjs cfg).length (buildXfrZoneObjs cfg).length

/-- The ids held by the resolver_zones list (slot 2) right after line 294,
before the extend loop of lines 323-324 runs. -/
def resolverZoneIdsBase (cfg : Config) : List Nat :=
  List.range' (buildMasterZoneObjs cfg ++ buildXfrZoneObjs cfg).length
    (buildResolverZoneObjs cfg).length

/-- The ids of the subdomain stub zones. -/
def stubIds (cfg : Config) : List Nat :=
  List.range' (buildMasterZoneObjs cfg ++ buildXfrZoneObjs cfg
      ++ buildResolverZoneObjs cfg ++ buildSubMasterObjs cfg).length
    (buildStubObjs cfg).length

/-- The final content of the single shared resolver_zones list: the extend
loop of lines 323-324 runs once per resolver on that one list object, so
when subdomain_resolver_count > 0 the stub block is appended once per
resolver. -/
def resolverZoneIdsFinal (cfg : Config) : List Nat :=
  if 0 < cfg.subdomain_resolver_count then
    resolverZoneIdsBase cfg
      ++ ((buildResolvers cfg).map (fun _ => stubIds cfg)).flatten
  else resolverZoneIdsBase cfg

/-- delegated_zones = copy.deepcopy(master_zones) with auth_nameservers
overridden to the resolver tier (lines 335-337): fresh objects, field for
field equal to the originals except auth_nameservers. -/
def buildDelegatedObjs (cfg : Config) : List ZoneObj :=
  (buildMasterZoneObjs cfg).map (fun z =>
    { z with auth_nameservers := some ((buildResolvers cfg).map NS.name) })

/-- The root nameserver (lines 328-338): zones is the fresh list
[root_zone] (line 334, the last list slot), delegated_zones holds the
freshly copied zone objects. -/
def buildRootNS (cfg : Config) : NS :=
  { name := "root", ip := cfg.root_ns_ip, use_chroot := !cfg.no_chroots,
    is_recursive := false,
    zonesRef := some (if 0 < cfg.subdomain_resolver_count then 4 else 3),
    delegated_zone_ids :=
      List.range' (buildHeapBeforeRoot cfg ++ [RootZone.init "root"]).length
        (buildDelegatedObjs cfg).length,
    root_ns_ip := none }

/-- The recursive nameservers (lines 340-346): no zones attribute, root hint
ip. -/
def buildRecursives (cfg : Config) : List NS :=
  (pyRange cfg.recursive_ns_count).map (fun i =>
    { name := "recursive" ++ Nat.repr i,
      ip := cfg.recursive_ns_pfx ++ "." ++ Nat.repr (i + 1),
      use_chroot := !cfg.no_chroots, is_recursive := true, zonesRef := none,
      delegated_zone_ids := [], root_ns_ip := some cfg.root_ns_ip })

/-- The assembled topology of main, lines 255-346. -/
def buildTopology (cfg : Config) : Topology :=
  { zoneHeap := buildHeapBeforeRoot cfg ++ [RootZone.init "root"]
      ++ buildDelegatedObjs cfg
    listHeap := [masterZoneIds cfg, xfrZoneIds cfg, resolverZoneIdsFinal cfg]
      ++ (if 0 < cfg.subdomain_resolver_count then
            [List.range' (buildMasterZoneObjs cfg ++ buildXfrZoneObjs cfg
                ++ buildResolverZoneObjs cfg).length
              (buildSubMasterObjs cfg).length]
          else [])
      ++ [[(buildHeapBeforeRoot cfg).length]]
    master_ns := buildMasterNS cfg
    xfrs := buildXfrs cfg
    resolvers := buildResolvers cfg
    subdomain_resolvers := buildSubResolvers cfg
    root_ns := buildRootNS cfg
    recursive_nameservers := buildRecursives cfg
    master_zone_ids := masterZoneIds cfg }

/-- Failure of an external command: subprocess.check_output raised
CalledProcessError (non-zero exit). -/
inductive CmdError
  | nonZeroExit
deriving DecidableEq

/-- run_command (lines 140-154): on a non-zero exit the output is logged and
the error is re-raised only when stop_on_failure holds (the Python default
is True); on a zero exit, and on a tolerated failure, the call returns
normally. -/
def run_command (exitOk : Bool) (stop_on_failure : Bool) : Except CmdError Unit :=
  if exitOk then Except.ok ()
  else if stop_on_failure then Except.error CmdError.nonZeroExit
  else Except.ok ()

/-- The call sites of run_command in the script: kill_running_nameservers
(line 168), configure_ips (line 174), start_nameservers (lines 181 and
187), nsupdate_loop (line 207). -/
inductive CallSite
  | killall
  | ifconfig
  | startNameserver
  | nsupdate
deriving DecidableEq

/-- The stop_on_failure value each call site passes: line 168 passes
stop_on_failure=False explicitly; every other call site relies on the
default True. -/
def callSiteStopOnFailure : CallSite → Bool
  | CallSite.killall => false
  | CallSite.ifconfig => true
  | CallSite.startNameserver => true
  | CallSite.nsupdate => true

/-- Running the command of one call site with a given exit outcome. -/
def runAtCallSite (cs : CallSite) (exitOk : Bool) : Except CmdError Unit :=
  run_command exitOk (callSiteStopOnFailure cs)

/-- One rendered nsupdate transaction: the context handed to the nsupdate
template and submitted through the command runner (lines 199-207). -/
structure NsupdateTx where
  master_ip : String
  old_value : Nat
  new_value : Nat
  zone : String
deriving DecidableEq

/-- State of nsupdate_loop: the counter current_value (line 192) and the
transactions submitted so far, oldest first. -/
structure NsupdateState where
  current_value : Nat
  sent : List NsupdateTx
deriving DecidableEq

/-- One iteration of the while body (lines 194-209): for each zone of the
target set, in order, render and submit one transaction carrying old_value
= the counter and new_value = the counter plus one; after the whole zone
loop the counter is incremented once.  Zones are identified by name. -/
def nsupdateCycle (master_ip : String) (zones : List String)
    (s : NsupdateState) : NsupdateState :=
  { current_value := s.current_value + 1
    sent := s.sent ++ zones.map (fun z =>
      { master_ip := master_ip, old_value := s.current_value,
        new_value := s.current_value + 1, zone := z }) }

/-- The loop state after k completed cycles, starting from current_value = 1
with nothing submitted (line 192).  The real loop never terminates; k
indexes its finite prefixes. -/
def nsupdateRun (master_ip : String) (zones : List String) : Nat → NsupdateState
  | 0 => { current_value := 1, sent := [] }
  | k + 1 => nsupdateCycle master_ip zones (nsupdateRun master_ip zones k)

/-- Filesystem and process effects of a run, in program order. -/
inductive Effect
  | rmtree (path : String)
  | mkdir (path : String)
  | writeFile (path : String)
  | command (line : String) (tolerant : Bool)
deriving DecidableEq

/-- build_dirs (lines 20-23). -/
def build_dirs (ns : NS) : List Effect :=
  [Effect.mkdir ("chroots/" ++ ns.name),
   Effect.mkdir ("chroots/" ++ ns.name ++ "/var/named/zones"),
   Effect.mkdir ("chroots/" ++ ns.name ++ "/var/log")]

/-- The zone-content files written by the zone loop of
AuthNameserver.build_chroot (lines 69-72): each zone of the node writes
through its write_zonefile dispatch. -/
def buildChrootZoneWrites (t : Topology) (ns : NS) : List String :=
  (nsZoneObjs t ns).flatMap (fun z => write_zonefile z ns.name)

/-- build_chroot for one nameserver: directories and the rendered config
(lines 35-39), then either the db.cache write of
RecursiveNameserver.build_chroot (lines 51-56) or the zone-file loop of
AuthNameserver.build_chroot (lines 69-72). -/
def build_chroot_effects (t : Topology) (ns : NS) : List Effect :=
  build_dirs ns
    ++ [Effect.writeFile ("chroots/" ++ ns.name ++ "/var/named/named9.conf")]
    ++ (if ns.is_recursive then
          [Effect.writeFile ("chroots/" ++ ns.name ++ "/var/named/zones/db.cache")]
        else (buildChrootZoneWrites t ns).map Effect.writeFile)

/-- main (lines 212-362) up to the optional update loop.  The zone and
record counts are validated (lines 245-248) before the topology is built,
before any directory is removed or created and before any external command
runs; on violation a ValueError with the given message propagates, so the
error branch carries no topology and no effect trace.  The trace of a valid
run covers clean_existing_directories (line 348), the build_chroot loop
(lines 350-352) and, when ns_path is set, the kill and address
configuration commands (lines 355-357).  The start_nameservers commands
(lines 177-187) iterate os.listdir, whose order the OS does not fix, and
the nsupdate phase (lines 360-362) never terminates; both are modelled
separately (runAtCallSite, nsupdateRun) and are omitted from this finite
deterministic trace. -/
def mainModel (cfg : Config) : Except String (Topology × List Effect) :=
  if cfg.zone_count < 1 then
    Except.error "At least one zone needs to be configured"
  else if cfg.record_count < 1 then
    Except.error "At least one test record needs to be configured"
  else
    let t := buildTopology cfg
    Except.ok (t,
      Effect.rmtree "chroots"
        :: (allNameservers t).flatMap (fun ns => build_chroot_effects t ns)
        ++ (match cfg.ns_path with
            | some _ =>
                Effect.command "killall named" true
                  :: ((List.range (allNameservers t).length).zip
                        ((allNameservers t).map NS.ip)).map
                      (fun p => Effect.command
                        ("ifconfig lo:" ++ Nat.repr p.1 ++ " " ++ p.2) false)
            | none => []))

/-! Helper lemmas. -/

/-- Reading a heap segment back through its indices returns the segment. -/
theorem filterMap_getElem_segment (l : List α) :
    ∀ (pre post : List α),
      (List.range' pre.length l.length).filterMap (fun i => (pre ++ l ++ post)[i]?) = l := by
  induction l with
  | nil => intro pre post; simp
  | cons a tl ih =>
    intro pre post
    have h1 : (pre ++ (a :: tl) ++ post)[pre.length]? = some a := by
      rw [List.getElem?_append, if_pos (by simp),
        List.getElem?_append_right (Nat.le_refl _)]
      simp
    have h2 := ih (pre ++ [a]) post
    simp only [List.length_append, List.length_cons, List.length_nil] at h2
    rw [List.length_cons, List.range'_succ, List.filterMap_cons, h1]
    simp only [List.append_assoc, List.singleton_append] at h2
    simpa using h2

/-- The zone-file writes of one zone list are exactly one write per
non-slave zone. -/
theorem flatMap_write_zonefile (n : String) (zs : List ZoneObj) :
    zs.flatMap (fun z => write_zonefile z n)
      = (zs.filter (fun z => !z.is_slave)).map (fun z => zonefilePath n z.name) := by
  induction zs with
  | nil => rfl
  | cons z tl ih =>
    have hw : write_zonefile z n
        = if z.is_slave then [] else [zonefilePath n z.name] := by
      cases hz : z.kind <;> simp [write_zonefile, ZoneObj.is_slave, hz]
    rw [List.flatMap_cons, List.filter_cons, hw, ih]
    cases hs : z.is_slave <;> simp [hs]

/-! Claim theorems. -/

/-- C5: among the external commands issued by the program exactly one call
site, the terminate-prior-processes killall step, tolerates a non-zero
exit (logged, execution continues); every other call site (loopback
address binding, nameserver start, update submission) raises on a
non-zero exit, and run_command raises on a failed command if and only if
its stop_on_failure flag is set, i.e. iff the call-site tolerance is not
granted. -/
theorem c5_call_site_tolerance :
    (∀ cs : CallSite, callSiteStopOnFailure cs = false ↔ cs = CallSite.killall)
    ∧ (∀ (cs : CallSite) (exitOk : Bool),
        runAtCallSite cs exitOk = Except.error CmdError.nonZeroExit
          ↔ (exitOk = false ∧ cs ≠ CallSite.killall))
    ∧ (∀ exitOk stopFlag : Bool,
        run_command exitOk stopFlag = Except.error CmdError.nonZeroExit
          ↔ (exitOk = false ∧ stopFlag = true)) := by
  refine ⟨fun cs => ?_, fun cs exitOk => ?_, fun exitOk stopFlag => ?_⟩
  · cases cs <;> simp [callSiteStopOnFailure]
  · cases cs <;> cases exitOk <;>
      simp [runAtCallSite, run_command, callSiteStopOnFailure]
  · cases exitOk <;> cases stopFlag <;> simp [run_command]

/-- C4: the update driver counter starts at 1 and increases by exactly one
per cycle: after k completed cycles the counter reads k + 1, the submitted
transactions are exactly one per zone of the target set per cycle, in the
fixed order of the target set, with cycle j (1-based values) rewriting the
value j to j + 1, and for a non-empty target set after at least one cycle
the last submitted new value equals k + 1. -/
theorem c4_nsupdate_loop (master_ip : String) (zones : List String) (k : Nat) :
    (nsupdateRun master_ip zones k).current_value = k + 1
    ∧ (nsupdateRun master_ip zones k).sent
        = ((List.range k).map (fun j => zones.map (fun z =>
            ({ master_ip := master_ip, old_value := j + 1, new_value := j + 2,
               zone := z } : NsupdateTx)))).flatten
    ∧ (zones ≠ [] → 1 ≤ k →
        (nsupdateRun master_ip zones k).sent.getLast?.map NsupdateTx.new_value
          = some (k + 1)) := by
  induction k with
  | zero =>
    refine ⟨rfl, rfl, ?_⟩
    intro _ hk
    exact absurd hk (by decide)
  | succ k ih =>
    obtain ⟨ihv, ihs, _⟩ := ih
    have hv : (nsupdateRun master_ip zones (k + 1)).current_value = k + 1 + 1 := by
      simp [nsupdateRun, nsupdateCycle, ihv]
    have hs : (nsupdateRun master_ip zones (k + 1)).sent
        = ((List.range (k + 1)).map (fun j => zones.map (fun z =>
            ({ master_ip := master_ip, old_value := j + 1, new_value := j + 2,
               zone := z } : NsupdateTx)))).flatten := by
      simp only [nsupdateRun, nsupdateCycle, ihs, ihv, List.range_succ,
        List.map_append, List.map_cons, List.map_nil, List.flatten_append,
        List.flatten_cons, List.flatten_nil, List.append_nil]
    refine ⟨hv, hs, ?_⟩
    intro hz _
    obtain ⟨z, hzl⟩ := Option.isSome_iff_exists.mp
      ((List.getLast?_isSome (l := zones)).mpr hz)
    have : (nsupdateRun master_ip zones (k + 1)).sent
        = (nsupdateRun master_ip zones k).sent ++ zones.map (fun z =>
            ({ master_ip := master_ip, old_value := k + 1, new_value := k + 2,
               zone := z } : NsupdateTx)) := by
      simp [nsupdateRun, nsupdateCycle, ihv]
    rw [this, List.getLast?_append, List.getLast?_map, hzl]
    simp

/-- C4 witness: two cycles over a singleton target set, checked concretely:
the counter reads 3 and the single transaction of the last cycle rewrites
2 to 3. -/
theorem c4_nsupdate_loop_witness :
    (nsupdateRun "127.1.1.1" ["zone0.com"] 2).current_value = 2 + 1
    ∧ (nsupdateRun "127.1.1.1" ["zone0.com"] 2).sent.getLast?.map NsupdateTx.new_value
        = some (2 + 1) := by
  have h := c4_nsupdate_loop "127.1.1.1" ["zone0.com"] 2
  exact ⟨h.1, h.2.2 (by decide) (by decide)⟩

/-- C6: during materialization, the zone-file loop of a node writes exactly
one zone-content file per MasterZone or RootZone of the zone set of the
node, at path chroots/(node)/var/named/zones/(zone-name).zone, and zero
files per SlaveZone or StubZone (whose write_zonefile is a no-op); the
slave variants are exactly those whose is_slave property holds. -/
theorem c6_zonefile_materialization (t : Topology) (ns : NS) :
    buildChrootZoneWrites t ns
      = ((nsZoneObjs t ns).filter (fun z => !z.is_slave)).map
          (fun z => zonefilePath ns.name z.name)
    ∧ (∀ z : ZoneObj, write_zonefile z ns.name
        = if z.is_slave then [] else [zonefilePath ns.name z.name])
    ∧ (∀ z : ZoneObj,
        z.is_slave = false ↔ (z.kind = ZoneKind.master ∨ z.kind = ZoneKind.rootz)) := by
  refine ⟨flatMap_write_zonefile ns.name (nsZoneObjs t ns), ?_, ?_⟩
  · intro z
    cases hz : z.kind <;> simp [write_zonefile, ZoneObj.is_slave, hz]
  · intro z
    cases hz : z.kind <;> simp [ZoneObj.is_slave, hz]

/-- C7: when zone_count < 1 or record_count < 1, main raises its
configuration ValueError before any construction or mutation: the run
produces no topology, no directory removal or creation, no file write and
no external command (the error carries nothing but the message, and the
validation precedes every effect in mainModel exactly as lines 245-248
precede lines 255-362 in the source). -/
theorem c7_validation_first (cfg : Config)
    (h : cfg.zone_count < 1 ∨ cfg.record_count < 1) :
    mainModel cfg = Except.error (if cfg.zone_count < 1
      then "At least one zone needs to be configured"
      else "At least one test record needs to be configured") := by
  unfold mainModel
  by_cases h1 : cfg.zone_count < 1
  · simp [h1]
  · have h2 := h.resolve_left h1
    simp [h1, h2]

/-- C7 witness: a zero zone count fails with the zone-count message. -/
theorem c7_validation_first_witness :
    mainModel { defaultConfig with zone_count := 0 }
      = Except.error "At least one zone needs to be configured" := by
  have h := c7_validation_first { defaultConfig with zone_count := 0 }
    (Or.inl (by decide))
  simpa using h

/-- Reading the root-zone singleton list back from the heap. -/
theorem nsZoneIds_root (cfg : Config) :
    nsZoneIds (buildTopology cfg) (buildTopology cfg).root_ns
      = [(buildHeapBeforeRoot cfg).length] := by
  unfold nsZoneIds buildTopology buildRootNS Topology.listAt
  by_cases hs : 0 < cfg.subdomain_resolver_count <;> simp [hs]

/-- The zone objects served by the root nameserver: exactly the one
RootZone. -/
theorem nsZoneObjs_root (cfg : Config) :
    nsZoneObjs (buildTopology cfg) (buildTopology cfg).root_ns
      = [RootZone.init "root"] := by
  unfold nsZoneObjs
  rw [nsZoneIds_root]
  have h := filterMap_getElem_segment [RootZone.init "root"]
    (buildHeapBeforeRoot cfg) (buildDelegatedObjs cfg)
  simpa [Topology.zoneAt, buildTopology, List.range'] using h

/-- Dereferencing the delegated ids yields the delegated copies. -/
theorem delegatedZoneObjs_eq (cfg : Config) :
    (buildTopology cfg).root_ns.delegated_zone_ids.filterMap
        (fun i => (buildTopology cfg).zoneAt i)
      = buildDelegatedObjs cfg := by
  have h := filterMap_getElem_segment (buildDelegatedObjs cfg)
    (buildHeapBeforeRoot cfg ++ [RootZone.init "root"]) []
  simpa [buildTopology, buildRootNS, Topology.zoneAt, List.append_assoc] using h

/-- Dereferencing the master-zone ids yields the master zones. -/
theorem masterZoneObjs_eq (cfg : Config) :
    (buildTopology cfg).master_zone_ids.filterMap
        (fun i => (buildTopology cfg).zoneAt i)
      = buildMasterZoneObjs cfg := by
  have h := filterMap_getElem_segment (buildMasterZoneObjs cfg) []
    (buildXfrZoneObjs cfg ++ buildResolverZoneObjs cfg ++ buildSubMasterObjs cfg
      ++ buildStubObjs cfg ++ ([RootZone.init "root"] ++ buildDelegatedObjs cfg))
  simpa [buildTopology, masterZoneIds, buildHeapBeforeRoot, Topology.zoneAt,
    List.append_assoc] using h

/-- A configuration exhibiting the shared-list stub bug: one zone, two
top-level resolvers, one subdomain resolver (all counts valid per the
validation of lines 245-248). -/
def subBugConfig : Config :=
  { defaultConfig with
    zone_count := 1, xfr_count := 0, resolver_count := 2
    subdomain_resolver_count := 1, record_count := 1 }

/-- C1 (what the code actually does at the failing input): with
subdomain_resolver_count = 1, zone_count = 1 and resolver_count = 2, every
zone set of every top-level resolver carries the stub block once per resolver --
each resolver serves two StubZones named sub.zone0.com, not exactly
zone_count = 1 of them, because lines 323-324 extend the one resolver_zones
list object shared by all resolvers once per resolver. -/
theorem c1_stub_population_bug :
    ((buildTopology subBugConfig).resolvers.map (fun r =>
        (nsZoneObjs (buildTopology subBugConfig) r).map ZoneObj.name))
      = [["zone0.com", "sub.zone0.com", "sub.zone0.com"],
         ["zone0.com", "sub.zone0.com", "sub.zone0.com"]]
    ∧ ((buildTopology subBugConfig).resolvers.map (fun r =>
        ((nsZoneObjs (buildTopology subBugConfig) r).filter
            (fun z => z.kind == ZoneKind.stub)).length))
      = [2, 2]
    ∧ subBugConfig.zone_count.toNat = 1 := by
  exact ⟨by decide, by decide, by decide⟩

/-- C2 (what the code actually does at the failing input): at the same
configuration the zone names within the zone set of a single nameserver are not
pairwise distinct -- each top-level resolver serves sub.zone0.com twice. -/
theorem c2_zone_name_uniqueness_bug :
    ¬ (∀ ns ∈ allNameservers (buildTopology subBugConfig),
        ((nsZoneObjs (buildTopology subBugConfig) ns).map ZoneObj.name).Nodup) := by
  decide

/-- C3: the delegated_zones of the root nameserver is derived from the top-level
master zones: the delegated copies carry exactly the master-zone names (in
order, hence as a set), the auth_nameservers of every delegated copy equals the
resolver tier, and the copies are fresh objects -- a delegated id never
coincides with a master-zone id, so overwriting the object behind a
delegated id leaves every original master zone object unchanged. -/
theorem c3_delegated_zones (cfg : Config) (d m : Nat)
    (hd : d ∈ (buildTopology cfg).root_ns.delegated_zone_ids)
    (hm : m ∈ (buildTopology cfg).master_zone_ids) :
    (((buildTopology cfg).root_ns.delegated_zone_ids.filterMap
        (fun i => (buildTopology cfg).zoneAt i)).map ZoneObj.name
      = ((buildTopology cfg).master_zone_ids.filterMap
          (fun i => (buildTopology cfg).zoneAt i)).map ZoneObj.name)
    ∧ (∀ z ∈ (buildTopology cfg).root_ns.delegated_zone_ids.filterMap
          (fun i => (buildTopology cfg).zoneAt i),
        z.auth_nameservers = some (((buildTopology cfg).resolvers).map NS.name))
    ∧ d ≠ m
    ∧ (∀ z : ZoneObj,
        (setZone (buildTopology cfg) d z).zoneAt m = (buildTopology cfg).zoneAt m) := by
  have hdm : d ≠ m := by
    rw [show (buildTopology cfg).root_ns = buildRootNS cfg from rfl] at hd
    unfold buildRootNS at hd
    rw [show (buildTopology cfg).master_zone_ids = masterZoneIds cfg from rfl] at hm
    unfold masterZoneIds at hm
    rw [List.mem_range'] at hd hm
    obtain ⟨i, _, rfl⟩ := hd
    obtain ⟨j, hj, rfl⟩ := hm
    have hle : (buildMasterZoneObjs cfg).length ≤ (buildHeapBeforeRoot cfg).length := by
      unfold buildHeapBeforeRoot
      simp
    simp only [List.length_append, List.length_cons, List.length_nil] at *
    omega
  refine ⟨?_, ?_, hdm, ?_⟩
  · rw [delegatedZoneObjs_eq, masterZoneObjs_eq]
    unfold buildDelegatedObjs
    simp [List.map_map, Function.comp]
  · intro z hz
    rw [delegatedZoneObjs_eq] at hz
    unfold buildDelegatedObjs at hz
    obtain ⟨w, _, rfl⟩ := List.mem_map.mp hz
    rfl
  · intro z
    unfold setZone Topology.zoneAt
    exact List.getElem?_set_ne hdm

/-- A small valid configuration used by concrete witnesses. -/
def smallConfig : Config :=
  { defaultConfig with record_count := 1 }

/-- C3 witness: for the default topology (record count 1 for brevity),
delegated id 7 and master id 0 are memberships checked concretely, the ids
differ, and overwriting the delegated object at id 7 leaves the master
zone at id 0 untouched. -/
theorem c3_delegated_zones_witness :
    7 ∈ (buildTopology smallConfig).root_ns.delegated_zone_ids
    ∧ 0 ∈ (buildTopology smallConfig).master_zone_ids
    ∧ 7 ≠ 0
    ∧ (setZone (buildTopology smallConfig) 7 (RootZone.init "mutant")).zoneAt 0
        = (buildTopology smallConfig).zoneAt 0 := by
  have h := c3_delegated_zones smallConfig 7 0 (by decide) (by decide)
  exact ⟨by decide, by decide, h.2.2.1, h.2.2.2 (RootZone.init "mutant")⟩

/-- Every xfr nameserver stores list reference 1. -/
theorem xfr_zonesRef (cfg : Config) (a : NS) (ha : a ∈ (buildTopology cfg).xfrs) :
    a.zonesRef = some 1 := by
  rw [show (buildTopology cfg).xfrs = buildXfrs cfg from rfl] at ha
  unfold buildXfrs at ha
  obtain ⟨i, _, rfl⟩ := List.mem_map.mp ha
  rfl

/-- Every resolver nameserver stores list reference 2. -/
theorem resolver_zonesRef (cfg : Config) (a : NS)
    (ha : a ∈ (buildTopology cfg).resolvers) : a.zonesRef = some 2 := by
  rw [show (buildTopology cfg).resolvers = buildResolvers cfg from rfl] at ha
  unfold buildResolvers at ha
  obtain ⟨i, _, rfl⟩ := List.mem_map.mp ha
  rfl

/-- C9: all xfr nameservers reference one and the same shared zones list
object, and all top-level resolver nameservers reference one and the same
shared zones list object; consequently appending a zone id through the
zones collection of any one resolver makes it a member of the zones
collection of every resolver. -/
theorem c9_shared_zone_lists (cfg : Config) (a b r r2 : NS) (zid : Nat)
    (ha : a ∈ (buildTopology cfg).xfrs) (hb : b ∈ (buildTopology cfg).xfrs)
    (hr : r ∈ (buildTopology cfg).resolvers)
    (hr2 : r2 ∈ (buildTopology cfg).resolvers) :
    a.zonesRef = b.zonesRef
    ∧ r.zonesRef = r2.zonesRef
    ∧ zid ∈ nsZoneIds (appendZoneVia (buildTopology cfg) r zid) r2 := by
  have hra := resolver_zonesRef cfg r hr
  have hrb := resolver_zonesRef cfg r2 hr2
  refine ⟨(xfr_zonesRef cfg a ha).trans (xfr_zonesRef cfg b hb).symm,
    hra.trans hrb.symm, ?_⟩
  have hlen : 2 < (buildTopology cfg).listHeap.length := by
    by_cases hs : 0 < cfg.subdomain_resolver_count <;> simp [buildTopology, hs]
  unfold appendZoneVia
  rw [hra]
  unfold nsZoneIds
  rw [hrb]
  unfold Topology.listAt
  simp only [List.getElem?_set_self (by simpa using hlen)]
  simp

/-- A configuration with two resolvers, used by the C9 witness. -/
def twoResolverConfig : Config :=
  { defaultConfig with resolver_count := 2, record_count := 1 }

/-- C9 witness: with two resolvers, both store the same list reference, and
an id appended through resolver0 is seen through resolver1. -/
theorem c9_shared_zone_lists_witness :
    ((buildTopology twoResolverConfig).resolvers.getD 0
        (buildMasterNS twoResolverConfig)).zonesRef
      = ((buildTopology twoResolverConfig).resolvers.getD 1
          (buildMasterNS twoResolverConfig)).zonesRef
    ∧ 99 ∈ nsZoneIds
        (appendZoneVia (buildTopology twoResolverConfig)
          ((buildTopology twoResolverConfig).resolvers.getD 0
            (buildMasterNS twoResolverConfig)) 99)
        ((buildTopology twoResolverConfig).resolvers.getD 1
          (buildMasterNS twoResolverConfig)) := by
  have h := c9_shared_zone_lists twoResolverConfig
    ((buildTopology twoResolverConfig).xfrs.getD 0 (buildMasterNS twoResolverConfig))
    ((buildTopology twoResolverConfig).xfrs.getD 0 (buildMasterNS twoResolverConfig))
    ((buildTopology twoResolverConfig).resolvers.getD 0 (buildMasterNS twoResolverConfig))
    ((buildTopology twoResolverConfig).resolvers.getD 1 (buildMasterNS twoResolverConfig))
    99 (by decide) (by decide) (by decide) (by decide)
  exact ⟨h.2.1, h.2.2⟩

/-- C10: the root nameserver serves exactly one RootZone object carrying
only the root label as name and a reference to the owning root nameserver;
unlike every other MasterZone it holds no refresh, retry, expire or
negative-TTL timing value, no test records and no auth_nameservers (those
attributes were never assigned, modelled as none), while every zone object
of MasterZone kind in the heap has all of those attributes assigned. -/
theorem c10_root_zone_attributes (cfg : Config) :
    nsZoneObjs (buildTopology cfg) (buildTopology cfg).root_ns
      = [RootZone.init "root"]
    ∧ (RootZone.init "root").name = "."
    ∧ (RootZone.init "root").root_ns = some "root"
    ∧ (RootZone.init "root").refresh = none
    ∧ (RootZone.init "root").retry = none
    ∧ (RootZone.init "root").expire = none
    ∧ (RootZone.init "root").negative_ttl = none
    ∧ (RootZone.init "root").test_records = none
    ∧ (RootZone.init "root").auth_nameservers = none
    ∧ (((buildTopology cfg).zoneHeap.filter
          (fun z => z.kind == ZoneKind.master)).all
        (fun z => z.refresh.isSome && z.retry.isSome && z.expire.isSome
          && z.negative_ttl.isSome && z.test_records.isSome
          && z.auth_nameservers.isSome)) = true := by
  refine ⟨nsZoneObjs_root cfg, rfl, rfl, rfl, rfl, rfl, rfl, rfl, rfl, ?_⟩
  rw [List.all_eq_true]
  intro z hz
  obtain ⟨hmem, hkind⟩ := List.mem_filter.mp hz
  simp only [buildTopology, buildHeapBeforeRoot, List.append_assoc,
    List.mem_append, List.mem_singleton] at hmem
  rcases hmem with h | h | h | h | h | h | h
  · obtain ⟨i, _, rfl⟩ := List.mem_map.mp h
    rfl
  · obtain ⟨i, _, rfl⟩ := List.mem_map.mp h
    simp [SlaveZone.init] at hkind
  · obtain ⟨i, _, rfl⟩ := List.mem_map.mp h
    simp [SlaveZone.init] at hkind
  · unfold buildSubMasterObjs at h
    split at h
    · obtain ⟨i, _, rfl⟩ := List.mem_map.mp h
      rfl
    · simp at h
  · unfold buildStubObjs at h
    split at h
    · obtain ⟨i, _, rfl⟩ := List.mem_map.mp h
      simp [StubZone.init, SlaveZone.init] at hkind
    · simp at h
  · subst h
    simp [RootZone.init] at hkind
  · obtain ⟨w, hw, rfl⟩ := List.mem_map.mp h
    obtain ⟨i, _, rfl⟩ := List.mem_map.mp hw
    rfl

/-! Decimal representation machinery: the generated nameserver names and
addresses embed Nat.repr, so the uniqueness statements need its
injectivity. -/

/-- Decimal digit list of a natural number, most significant digit first:
the fuel-free description of Nat.toDigits at base 10. -/
def decDigits (n : Nat) : List Char :=
  if n < 10 then [Nat.digitChar n]
  else decDigits (n / 10) ++ [Nat.digitChar (n % 10)]
decreasing_by exact Nat.div_lt_self (by omega) (by omega)

theorem decDigits_of_lt (n : Nat) (h : n < 10) :
    decDigits n = [Nat.digitChar n] := by
  rw [decDigits, if_pos h]

theorem decDigits_of_ge (n : Nat) (h : 10 ≤ n) :
    decDigits n = decDigits (n / 10) ++ [Nat.digitChar (n % 10)] := by
  rw [decDigits, if_neg (by omega)]

theorem decDigits_ne_nil (n : Nat) : decDigits n ≠ [] := by
  by_cases h : n < 10
  · rw [decDigits_of_lt n h]
    simp
  · rw [decDigits_of_ge n (by omega)]
    simp

theorem two_le_length_decDigits (n : Nat) (h : 10 ≤ n) :
    2 ≤ (decDigits n).length := by
  rw [decDigits_of_ge n h]
  have := List.length_pos.mpr (decDigits_ne_nil (n / 10))
  simp
  omega

theorem toDigitsCore_eq_decDigits :
    ∀ (fuel n : Nat) (ds : List Char), n < fuel →
      Nat.toDigitsCore 10 fuel n ds = decDigits n ++ ds := by
  intro fuel
  induction fuel with
  | zero => exact fun n ds h => absurd h (Nat.not_lt_zero n)
  | succ f ih =>
    intro n ds h
    show (if n / 10 = 0 then Nat.digitChar (n % 10) :: ds
      else Nat.toDigitsCore 10 f (n / 10) (Nat.digitChar (n % 10) :: ds))
      = decDigits n ++ ds
    by_cases h10 : n / 10 = 0
    · have hn : n < 10 := by omega
      rw [if_pos h10, decDigits_of_lt n hn, Nat.mod_eq_of_lt hn]
      rfl
    · have hn : 10 ≤ n := by omega
      have hlt : n / 10 < f := by
        have := Nat.div_lt_self (show 0 < n by omega) (show 1 < 10 by omega)
        omega
      rw [if_neg h10, ih (n / 10) (Nat.digitChar (n % 10) :: ds) hlt,
        decDigits_of_ge n hn]
      simp

theorem toDigits_eq_decDigits (n : Nat) : Nat.toDigits 10 n = decDigits n := by
  have h := toDigitsCore_eq_decDigits (n + 1) n [] (Nat.lt_succ_self n)
  simpa [Nat.toDigits] using h

theorem digitChar_inj (a b : Nat) (ha : a < 10) (hb : b < 10)
    (h : Nat.digitChar a = Nat.digitChar b) : a = b := by
  have hfin : ∀ (x y : Fin 10),
      Nat.digitChar x.val = Nat.digitChar y.val → x = y := by decide
  have := hfin ⟨a, ha⟩ ⟨b, hb⟩ h
  exact congrArg Fin.val this

theorem decDigits_inj (n : Nat) :
    ∀ m : Nat, decDigits n = decDigits m → n = m := by
  induction n using Nat.strong_induction_on with
  | _ n ih =>
    intro m h
    by_cases hn : n < 10 <;> by_cases hm : m < 10
    · rw [decDigits_of_lt n hn, decDigits_of_lt m hm] at h
      exact digitChar_inj n m hn hm (by simpa using h)
    · have h2 := two_le_length_decDigits m (by omega)
      rw [decDigits_of_lt n hn] at h
      have := congrArg List.length h
      simp at this
      omega
    · have h2 := two_le_length_decDigits n (by omega)
      rw [decDigits_of_lt m hm] at h
      have := congrArg List.length h
      simp at this
      omega
    · rw [decDigits_of_ge n (by omega), decDigits_of_ge m (by omega)] at h
      obtain ⟨h1, h2⟩ := List.append_inj' h (by simp)
      have hdiv : n / 10 = m / 10 :=
        ih (n / 10) (Nat.div_lt_self (by omega) (by omega)) (m / 10) h1
      have hmod : n % 10 = m % 10 :=
        digitChar_inj _ _ (Nat.mod_lt n (by omega)) (Nat.mod_lt m (by omega))
          (by simpa using h2)
      omega

/-- Nat.repr is injective. -/
theorem natRepr_inj : Function.Injective Nat.repr := by
  intro n m h
  have h2 : Nat.toDigits 10 n = Nat.toDigits 10 m := by
    have := congrArg String.data h
    simpa [Nat.repr, List.asString] using this
  rw [toDigits_eq_decDigits, toDigits_eq_decDigits] at h2
  exact decDigits_inj n m h2

/-- Appending distinct decimal reprs to one stem yields distinct strings. -/
theorem append_repr_inj (p : String) :
    Function.Injective (fun i : Nat => p ++ Nat.repr i) := by
  intro a b h
  have h2 := congrArg String.data h
  simp only [String.data_append, List.append_cancel_left_eq] at h2
  exact natRepr_inj (String.ext h2)

/-- Two appends differ when their data differ at a position inside both
stems. -/
theorem append_ne_append (p q s t : String) (k : Nat)
    (hp : k < p.data.length) (hq : k < q.data.length)
    (hne : p.data[k]? ≠ q.data[k]?) : p ++ s ≠ q ++ t := by
  intro h
  have h2 := congrArg (fun u : String => u.data[k]?) h
  simp only [String.data_append] at h2
  rw [List.getElem?_append, if_pos hp, List.getElem?_append, if_pos hq] at h2
  exact hne h2

/-- A plain string differs from an append when their data differ at a
position inside the stem of the append. -/
theorem ne_append_of_mismatch (x q t : String) (k : Nat)
    (hq : k < q.data.length) (hne : x.data[k]? ≠ q.data[k]?) : x ≠ q ++ t := by
  intro h
  have h2 := congrArg (fun u : String => u.data[k]?) h
  simp only [String.data_append] at h2
  rw [List.getElem?_append, if_pos hq] at h2
  exact hne h2

/-! Projections of the built nameserver tiers to their generated names and
addresses. -/

theorem xfrs_map_name (cfg : Config) : (buildXfrs cfg).map NS.name
    = (List.range cfg.xfr_count.toNat).map (fun i => "xfr" ++ Nat.repr i) := by
  simp [buildXfrs, pyRange, List.map_map, Function.comp]

theorem resolvers_map_name (cfg : Config) : (buildResolvers cfg).map NS.name
    = (List.range cfg.resolver_count.toNat).map
        (fun i => "resolver" ++ Nat.repr i) := by
  simp [buildResolvers, pyRange, List.map_map, Function.comp]

theorem subs_map_name (cfg : Config) : (buildSubResolvers cfg).map NS.name
    = (List.range cfg.subdomain_resolver_count.toNat).map
        (fun i => "sub" ++ Nat.repr i) := by
  unfold buildSubResolvers
  by_cases hs : 0 < cfg.subdomain_resolver_count
  · simp [hs, pyRange, List.map_map, Function.comp]
  · simp [hs, pyRange]
    omega

theorem recs_map_name (cfg : Config) : (buildRecursives cfg).map NS.name
    = (List.range cfg.recursive_ns_count.toNat).map
        (fun i => "recursive" ++ Nat.repr i) := by
  simp [buildRecursives, pyRange, List.map_map, Function.comp]

theorem xfrs_map_ip (cfg : Config) : (buildXfrs cfg).map NS.ip
    = (List.range cfg.xfr_count.toNat).map
        (fun i => cfg.xfr_ip_pfx ++ "." ++ Nat.repr (i + 1)) := by
  simp [buildXfrs, pyRange, List.map_map, Function.comp]

theorem resolvers_map_ip (cfg : Config) : (buildResolvers cfg).map NS.ip
    = (List.range cfg.resolver_count.toNat).map
        (fun i => cfg.resolver_ip_pfx ++ "." ++ Nat.repr (i + 1)) := by
  simp [buildResolvers, pyRange, List.map_map, Function.comp]

theorem subs_map_ip (cfg : Config) : (buildSubResolvers cfg).map NS.ip
    = (List.range cfg.subdomain_resolver_count.toNat).map
        (fun i => cfg.subdomain_resolver_ip_pfx ++ "." ++ Nat.repr (i + 1)) := by
  unfold buildSubResolvers
  by_cases hs : 0 < cfg.subdomain_resolver_count
  · simp [hs, pyRange, List.map_map, Function.comp]
  · simp [hs, pyRange]
    omega

theorem recs_map_ip (cfg : Config) : (buildRecursives cfg).map NS.ip
    = (List.range cfg.recursive_ns_count.toNat).map
        (fun i => cfg.recursive_ns_pfx ++ "." ++ Nat.repr (i + 1)) := by
  simp [buildRecursives, pyRange, List.map_map, Function.comp]

theorem allNames_eq (cfg : Config) :
    (allNameservers (buildTopology cfg)).map NS.name
      = "root" :: "master" ::
        ((List.range cfg.xfr_count.toNat).map (fun i => "xfr" ++ Nat.repr i)
          ++ ((List.range cfg.resolver_count.toNat).map
                (fun i => "resolver" ++ Nat.repr i)
            ++ ((List.range cfg.subdomain_resolver_count.toNat).map
                  (fun i => "sub" ++ Nat.repr i)
              ++ (List.range cfg.recursive_ns_count.toNat).map
                  (fun i => "recursive" ++ Nat.repr i)))) := by
  simp [allNameservers, buildTopology, buildMasterNS, buildRootNS,
    xfrs_map_name, resolvers_map_name, subs_map_name, recs_map_name]

theorem allIps_eq (cfg : Config) :
    (allNameservers (buildTopology cfg)).map NS.ip
      = cfg.root_ns_ip :: cfg.master_ip ::
        ((List.range cfg.xfr_count.toNat).map
            (fun i => cfg.xfr_ip_pfx ++ "." ++ Nat.repr (i + 1))
          ++ ((List.range cfg.resolver_count.toNat).map
                (fun i => cfg.resolver_ip_pfx ++ "." ++ Nat.repr (i + 1))
            ++ ((List.range cfg.subdomain_resolver_count.toNat).map
                  (fun i => cfg.subdomain_resolver_ip_pfx ++ "." ++ Nat.repr (i + 1))
              ++ (List.range cfg.recursive_ns_count.toNat).map
                  (fun i => cfg.recursive_ns_pfx ++ "." ++ Nat.repr (i + 1))))) := by
  simp [allNameservers, buildTopology, buildMasterNS, buildRootNS,
    xfrs_map_ip, resolvers_map_ip, subs_map_ip, recs_map_ip]

/-! Generic uniqueness helpers for generated chunks. -/

theorem nodup_chunk {f : Nat → String} (hf : Function.Injective f) (n : Nat) :
    ((List.range n).map f).Nodup :=
  (List.nodup_range n).map hf

theorem not_mem_chunk {x : String} {f : Nat → String} (n : Nat)
    (h : ∀ i, x ≠ f i) : x ∉ (List.range n).map f := by
  intro hx
  obtain ⟨i, _, he⟩ := List.mem_map.mp hx
  exact h i he.symm

theorem disjoint_chunk {f g : Nat → String} (h : ∀ a b, f a ≠ g b) (n m : Nat) :
    List.Disjoint ((List.range n).map f) ((List.range m).map g) := by
  intro x hx hy
  obtain ⟨a, _, rfl⟩ := List.mem_map.mp hx
  obtain ⟨b, _, he⟩ := List.mem_map.mp hy
  exact h a b he.symm

theorem append_repr_succ_inj (p : String) :
    Function.Injective (fun i : Nat => p ++ Nat.repr (i + 1)) := by
  intro a b h
  have h2 : a + 1 = b + 1 := append_repr_inj p h
  omega

/-- The generated nameserver names are pairwise distinct for every
configuration. -/
theorem names_nodup (cfg : Config) :
    ((allNameservers (buildTopology cfg)).map NS.name).Nodup := by
  rw [allNames_eq, List.nodup_cons, List.nodup_cons]
  refine ⟨?_, ?_, ?_⟩
  · simp only [List.mem_cons, List.mem_append, not_or]
    exact ⟨by decide,
      not_mem_chunk _ (fun i =>
        ne_append_of_mismatch "root" "xfr" _ 0 (by decide) (by decide)),
      not_mem_chunk _ (fun i =>
        ne_append_of_mismatch "root" "resolver" _ 1 (by decide) (by decide)),
      not_mem_chunk _ (fun i =>
        ne_append_of_mismatch "root" "sub" _ 0 (by decide) (by decide)),
      not_mem_chunk _ (fun i =>
        ne_append_of_mismatch "root" "recursive" _ 1 (by decide) (by decide))⟩
  · simp only [List.mem_append, not_or]
    exact ⟨not_mem_chunk _ (fun i =>
        ne_append_of_mismatch "master" "xfr" _ 0 (by decide) (by decide)),
      not_mem_chunk _ (fun i =>
        ne_append_of_mismatch "master" "resolver" _ 0 (by decide) (by decide)),
      not_mem_chunk _ (fun i =>
        ne_append_of_mismatch "master" "sub" _ 0 (by decide) (by decide)),
      not_mem_chunk _ (fun i =>
        ne_append_of_mismatch "master" "recursive" _ 0 (by decide) (by decide))⟩
  · rw [List.nodup_append, List.nodup_append, List.nodup_append]
    refine ⟨nodup_chunk (append_repr_inj "xfr") _,
      ⟨nodup_chunk (append_repr_inj "resolver") _,
        ⟨nodup_chunk (append_repr_inj "sub") _,
          nodup_chunk (append_repr_inj "recursive") _,
          disjoint_chunk (fun a b =>
            append_ne_append "sub" "recursive" _ _ 0 (by decide) (by decide)
              (by decide)) _ _⟩,
        ?_⟩, ?_⟩
    · rw [List.disjoint_append_right]
      exact ⟨disjoint_chunk (fun a b =>
          append_ne_append "resolver" "sub" _ _ 0 (by decide) (by decide)
            (by decide)) _ _,
        disjoint_chunk (fun a b =>
          append_ne_append "resolver" "recursive" _ _ 2 (by decide) (by decide)
            (by decide)) _ _⟩
    · rw [List.disjoint_append_right, List.disjoint_append_right]
      exact ⟨disjoint_chunk (fun a b =>
          append_ne_append "xfr" "resolver" _ _ 0 (by decide) (by decide)
            (by decide)) _ _,
        disjoint_chunk (fun a b =>
          append_ne_append "xfr" "sub" _ _ 0 (by decide) (by decide)
            (by decide)) _ _,
        disjoint_chunk (fun a b =>
          append_ne_append "xfr" "recursive" _ _ 0 (by decide) (by decide)
            (by decide)) _ _⟩

/-- Under the default addressing, the generated addresses are pairwise
distinct for every choice of counts. -/
theorem ips_nodup_default (cfg : Config)
    (h1 : cfg.master_ip = "127.1.1.1") (h2 : cfg.root_ns_ip = "127.1.1.2")
    (h3 : cfg.xfr_ip_pfx = "127.2.2") (h4 : cfg.resolver_ip_pfx = "127.3.3")
    (h5 : cfg.subdomain_resolver_ip_pfx = "127.4.4")
    (h6 : cfg.recursive_ns_pfx = "127.5.5") :
    ((allNameservers (buildTopology cfg)).map NS.ip).Nodup := by
  rw [allIps_eq, h1, h2, h3, h4, h5, h6, List.nodup_cons, List.nodup_cons]
  refine ⟨?_, ?_, ?_⟩
  · simp only [List.mem_cons, List.mem_append, not_or]
    exact ⟨by decide,
      not_mem_chunk _ (fun i => ne_append_of_mismatch "127.1.1.2"
        ("127.2.2" ++ ".") _ 4 (by decide) (by decide)),
      not_mem_chunk _ (fun i => ne_append_of_mismatch "127.1.1.2"
        ("127.3.3" ++ ".") _ 4 (by decide) (by decide)),
      not_mem_chunk _ (fun i => ne_append_of_mismatch "127.1.1.2"
        ("127.4.4" ++ ".") _ 4 (by decide) (by decide)),
      not_mem_chunk _ (fun i => ne_append_of_mismatch "127.1.1.2"
        ("127.5.5" ++ ".") _ 4 (by decide) (by decide))⟩
  · simp only [List.mem_append, not_or]
    exact ⟨not_mem_chunk _ (fun i => ne_append_of_mismatch "127.1.1.1"
        ("127.2.2" ++ ".") _ 4 (by decide) (by decide)),
      not_mem_chunk _ (fun i => ne_append_of_mismatch "127.1.1.1"
        ("127.3.3" ++ ".") _ 4 (by decide) (by decide)),
      not_mem_chunk _ (fun i => ne_append_of_mismatch "127.1.1.1"
        ("127.4.4" ++ ".") _ 4 (by decide) (by decide)),
      not_mem_chunk _ (fun i => ne_append_of_mismatch "127.1.1.1"
        ("127.5.5" ++ ".") _ 4 (by decide) (by decide))⟩
  · rw [List.nodup_append, List.nodup_append, List.nodup_append]
    refine ⟨nodup_chunk (append_repr_succ_inj ("127.2.2" ++ ".")) _,
      ⟨nodup_chunk (append_repr_succ_inj ("127.3.3" ++ ".")) _,
        ⟨nodup_chunk (append_repr_succ_inj ("127.4.4" ++ ".")) _,
          nodup_chunk (append_repr_succ_inj ("127.5.5" ++ ".")) _,
          disjoint_chunk (fun a b => append_ne_append ("127.4.4" ++ ".")
            ("127.5.5" ++ ".") _ _ 4 (by decide) (by decide) (by decide)) _ _⟩,
        ?_⟩, ?_⟩
    · rw [List.disjoint_append_right]
      exact ⟨disjoint_chunk (fun a b => append_ne_append ("127.3.3" ++ ".")
          ("127.4.4" ++ ".") _ _ 4 (by decide) (by decide) (by decide)) _ _,
        disjoint_chunk (fun a b => append_ne_append ("127.3.3" ++ ".")
          ("127.5.5" ++ ".") _ _ 4 (by decide) (by decide) (by decide)) _ _⟩
    · rw [List.disjoint_append_right, List.disjoint_append_right]
      exact ⟨disjoint_chunk (fun a b => append_ne_append ("127.2.2" ++ ".")
          ("127.3.3" ++ ".") _ _ 4 (by decide) (by decide) (by decide)) _ _,
        disjoint_chunk (fun a b => append_ne_append ("127.2.2" ++ ".")
          ("127.4.4" ++ ".") _ _ 4 (by decide) (by decide) (by decide)) _ _,
        disjoint_chunk (fun a b => append_ne_append ("127.2.2" ++ ".")
          ("127.5.5" ++ ".") _ _ 4 (by decide) (by decide) (by decide)) _ _⟩

/-- A valid configuration in which two roles are given the same address
block: the resolver tier reuses the xfr block 127.2.2. -/
def pfxCollisionConfig : Config :=
  { defaultConfig with
    zone_count := 1, xfr_count := 1, resolver_count := 1
    resolver_ip_pfx := "127.2.2", record_count := 1 }

/-- C8 counterexample: IP uniqueness does not hold for every choice of
prefixes.  At a valid configuration (zone_count = 1 >= 1, record_count =
1 >= 1, all role counts >= 0) whose xfr and resolver blocks share the
address stem 127.2.2, xfr0 and resolver0 both receive 127.2.2.1, so the
addresses of the built topology are not pairwise distinct. -/
theorem c8_unique_ip_counterexample :
    ((buildTopology pfxCollisionConfig).xfrs.map NS.ip = ["127.2.2.1"]
      ∧ (buildTopology pfxCollisionConfig).resolvers.map NS.ip = ["127.2.2.1"])
    ∧ ¬ ((allNameservers (buildTopology pfxCollisionConfig)).map NS.ip).Nodup := by
  exact ⟨⟨by decide, by decide⟩, by decide⟩

/-- C8 as amended: for any valid configuration the Builder assigns each
role instance the deterministic address stem.(index+1), 1-based per role,
and produces exactly one Nameserver per configured role slot; the
nameserver names are pairwise distinct for every choice of prefixes, and
the addresses are pairwise distinct over all nameservers under the default
addressing (master 127.1.1.1, root 127.1.1.2, and the distinct per-role
blocks 127.2.2 / 127.3.3 / 127.4.4 / 127.5.5) -- though not for every
choice of prefixes. -/
theorem c8_role_slots_names_ips (cfg : Config) :
    ((buildTopology cfg).xfrs.length = cfg.xfr_count.toNat
      ∧ (buildTopology cfg).resolvers.length = cfg.resolver_count.toNat
      ∧ (buildTopology cfg).subdomain_resolvers.length
          = cfg.subdomain_resolver_count.toNat
      ∧ (buildTopology cfg).recursive_nameservers.length
          = cfg.recursive_ns_count.toNat)
    ∧ ((buildTopology cfg).xfrs.map NS.ip
        = (List.range cfg.xfr_count.toNat).map
            (fun i => cfg.xfr_ip_pfx ++ "." ++ Nat.repr (i + 1))
      ∧ (buildTopology cfg).resolvers.map NS.ip
        = (List.range cfg.resolver_count.toNat).map
            (fun i => cfg.resolver_ip_pfx ++ "." ++ Nat.repr (i + 1))
      ∧ (buildTopology cfg).subdomain_resolvers.map NS.ip
        = (List.range cfg.subdomain_resolver_count.toNat).map
            (fun i => cfg.subdomain_resolver_ip_pfx ++ "." ++ Nat.repr (i + 1))
      ∧ (buildTopology cfg).recursive_nameservers.map NS.ip
        = (List.range cfg.recursive_ns_count.toNat).map
            (fun i => cfg.recursive_ns_pfx ++ "." ++ Nat.repr (i + 1)))
    ∧ ((allNameservers (buildTopology cfg)).map NS.name).Nodup
    ∧ (cfg.master_ip = "127.1.1.1" → cfg.root_ns_ip = "127.1.1.2" →
        cfg.xfr_ip_pfx = "127.2.2" → cfg.resolver_ip_pfx = "127.3.3" →
        cfg.subdomain_resolver_ip_pfx = "127.4.4" →
        cfg.recursive_ns_pfx = "127.5.5" →
        ((allNameservers (buildTopology cfg)).map NS.ip).Nodup) := by
  refine ⟨⟨?_, ?_, ?_, ?_⟩,
    ⟨xfrs_map_ip cfg, resolvers_map_ip cfg, subs_map_ip cfg, recs_map_ip cfg⟩,
    names_nodup cfg,
    fun h1 h2 h3 h4 h5 h6 => ips_nodup_default cfg h1 h2 h3 h4 h5 h6⟩
  · simp [buildTopology, buildXfrs, pyRange]
  · simp [buildTopology, buildResolvers, pyRange]
  · show (buildSubResolvers cfg).length = _
    have h := congrArg List.length (subs_map_name cfg)
    simpa using h
  · simp [buildTopology, buildRecursives, pyRange]

/-- C8 witness: at the default configuration (record count 1 for brevity)
the generated names and the generated addresses are each pairwise
distinct, and the xfr addresses follow the stem.(index+1) formula. -/
theorem c8_role_slots_names_ips_witness :
    ((allNameservers (buildTopology smallConfig)).map NS.name).Nodup
    ∧ ((allNameservers (buildTopology smallConfig)).map NS.ip).Nodup
    ∧ (buildTopology smallConfig).xfrs.map NS.ip
        = (List.range (2 : Int).toNat).map
            (fun i => "127.2.2" ++ "." ++ Nat.repr (i + 1)) := by
  have h := c8_role_slots_names_ips smallConfig
  exact ⟨h.2.2.1, h.2.2.2 rfl rfl rfl rfl rfl rfl, h.2.1.1⟩

end BindChroots
